import Mathlib

/-!
Verification of the transgode audio transcoding service (`main.go`).

The development shallowly embeds the request handler registered on
`/speak/transcode` and its helper functions `filterEncodeWriteFrame`,
`encodeWriteFrame` and `channels2Layout`.  The native library calls
(decoder, filter graph, encoder, muxer) are modelled by oracle scripts:
each fallible call consumes a scripted result, and the embedding records
the observable calls in an event trace.  Packets carry the time base in
which their timestamps are currently expressed, so the rescaling
discipline is visible in the trace.
-/

namespace Transgode

/-- A time base (a rational `num/den`), as carried by streams and codec
contexts.  Only its identity matters for the properties proved here. -/
structure TB where
  num : Int
  den : Int
deriving DecidableEq

/-- Media type of a stream or codec context. -/
inductive MT
  | audio
  | video
  | other
deriving DecidableEq

/-- A packet: its stream index field and the time base in which its
timestamps (pts/dts/duration) are currently expressed. -/
structure Packet where
  streamIndex : Nat
  tb : TB
deriving DecidableEq

/-- `pkt.RescaleTs(src, dst)`: after the call the packet's timestamps are
expressed in the destination time base. -/
def rescaleTs (p : Packet) (_src dst : TB) : Packet :=
  { p with tb := dst }

/-- `pkt.SetStreamIndex(i)`. -/
def setStreamIndex (p : Packet) (i : Nat) : Packet :=
  { p with streamIndex := i }

/-- Result kind of a receive-style native call (`ReceiveFrame`,
`BuffersinkGetFrame`, `ReceivePacket`): a produced value, `EAGAIN`
("needs more input"), `EOF` ("end of stream"), or any other error. -/
inductive RK
  | ok
  | eagain
  | eof
  | fatal
deriving DecidableEq

/-- The per-pipeline data of the Go `stream` struct that the loops read:
input stream index and the four time bases, plus the output stream
index. -/
structure StreamModel where
  sid : Nat
  inTB : TB
  decTB : TB
  encTB : TB
  outTB : TB
  outIndex : Nat
deriving DecidableEq

/-- Observable events of a request: native allocations, the calls of the
demux/decode/filter/encode/mux loops, and filter-graph construction. -/
inductive Ev
  | alloc (kind : String)
  | readPkt (sid : Nat)
  | readFail
  | sendPacket (sid : Nat) (p : Packet)
  | decRecv (sid : Nat) (r : RK)
  | filterAdd (sid : Nat) (flush : Bool)
  | filterUnref (sid : Nat)
  | sinkGet (sid : Nat) (r : RK)
  | resetPictureType (sid : Nat)
  | encUnref (sid : Nat)
  | encSend (sid : Nat) (flush : Bool)
  | encRecv (sid : Nat) (r : RK)
  | writePkt (sid : Nat) (p : Packet)
  | writeTrailer
  | newFilterCtx (filterName instName : String)
  | padBind (padName filterName : String)
deriving DecidableEq

/-- Scripted result of one `encCodecContext.ReceivePacket` call inside the
encode-drain loop; a produced packet also scripts the following
`WriteInterleavedFrame` result. -/
inductive EncStep
  | pkt (writeOk : Bool)
  | eagain
  | eof
  | fatal
deriving DecidableEq

/-- Script for one `encodeWriteFrame` call: the `SendFrame` result and the
successive `ReceivePacket` results. -/
structure EncCall where
  sendOk : Bool
  steps : List EncStep
deriving DecidableEq

/-- The encode-drain loop of `encodeWriteFrame` (main.go lines 576-596):
receive a packet; on `EAGAIN`/`EOF` stop without error; on another error
fail; on a packet, set its stream index to the output stream index,
rescale it from the encoder time base to the output stream time base and
write it interleaved. -/
def encDrain (s : StreamModel) : List EncStep → List Ev × Option String
  | [] => ([], none)
  | EncStep.pkt w :: rest =>
    let p0 : Packet := { streamIndex := 0, tb := s.encTB }
    let p1 := setStreamIndex p0 s.outIndex
    let p2 := rescaleTs p1 s.encTB s.outTB
    let evs := [Ev.encRecv s.sid RK.ok, Ev.writePkt s.sid p2]
    if w then
      let r := encDrain s rest
      (evs ++ r.1, r.2)
    else
      (evs, some "main: writing frame failed")
  | EncStep.eagain :: _ => ([Ev.encRecv s.sid RK.eagain], none)
  | EncStep.eof :: _ => ([Ev.encRecv s.sid RK.eof], none)
  | EncStep.fatal :: _ => ([Ev.encRecv s.sid RK.fatal], some "main: receiving packet failed")

/-- `encodeWriteFrame` (main.go lines 565-598): unreference the reusable
encode packet once, send the frame (`flush = true` models the nil frame
sentinel), then run the encode-drain loop. -/
def encodeWriteFrame (s : StreamModel) (flush : Bool) (c : EncCall) : List Ev × Option String :=
  let hd := [Ev.encUnref s.sid, Ev.encSend s.sid flush]
  if c.sendOk then
    let r := encDrain s c.steps
    (hd ++ r.1, r.2)
  else
    (hd, some "main: sending frame failed")

/-- Scripted result of one `BuffersinkGetFrame` call; a produced frame
also scripts the nested `encodeWriteFrame` call it is handed to. -/
inductive SinkStep
  | frame (enc : EncCall)
  | eagain
  | eof
  | fatal
deriving DecidableEq

/-- Script for one `filterEncodeWriteFrame` call: the `BuffersrcAddFrame`
result and the successive sink results. -/
structure FilterCall where
  addOk : Bool
  steps : List SinkStep
deriving DecidableEq

/-- The filter-drain loop of `filterEncodeWriteFrame` (main.go lines
539-561): unreference the filter frame, pull a frame from the sink; on
`EAGAIN`/`EOF` stop without error; on another error fail; on a frame,
reset its picture type and hand it to `encodeWriteFrame` (with an actual
frame, not the flush sentinel). -/
def filterDrain (s : StreamModel) : List SinkStep → List Ev × Option String
  | [] => ([], none)
  | SinkStep.frame ec :: rest =>
    let er := encodeWriteFrame s false ec
    let evs := [Ev.filterUnref s.sid, Ev.sinkGet s.sid RK.ok, Ev.resetPictureType s.sid] ++ er.1
    match er.2 with
    | some m => (evs, some ("main: encoding and writing frame failed: " ++ m))
    | none =>
      let r := filterDrain s rest
      (evs ++ r.1, r.2)
  | SinkStep.eagain :: _ => ([Ev.filterUnref s.sid, Ev.sinkGet s.sid RK.eagain], none)
  | SinkStep.eof :: _ => ([Ev.filterUnref s.sid, Ev.sinkGet s.sid RK.eof], none)
  | SinkStep.fatal :: _ =>
    ([Ev.filterUnref s.sid, Ev.sinkGet s.sid RK.fatal], some "main: getting frame failed")

/-- `filterEncodeWriteFrame` (main.go lines 531-563): push the frame (or
the nil flush sentinel, `flush = true`) into the buffersrc context, then
run the filter-drain loop. -/
def filterEncodeWriteFrame (s : StreamModel) (flush : Bool) (c : FilterCall) :
    List Ev × Option String :=
  if c.addOk then
    let r := filterDrain s c.steps
    (Ev.filterAdd s.sid flush :: r.1, r.2)
  else
    ([Ev.filterAdd s.sid flush], some "main: adding frame failed")

/-- Scripted result of one `decCodecContext.ReceiveFrame` call; a produced
frame also scripts the nested `filterEncodeWriteFrame` call. -/
inductive DecStep
  | frame (fc : FilterCall)
  | eagain
  | eof
  | fatal
deriving DecidableEq

/-- Script for the handling of one demuxed packet: the `SendPacket` result
and the successive `ReceiveFrame` results. -/
structure DecCall where
  sendOk : Bool
  steps : List DecStep
deriving DecidableEq

/-- The decode-drain loop (main.go lines 480-497): receive a frame; on
`EAGAIN` or `EOF` break out of this inner loop only (both are treated by
the same `break`, main.go line 483); on another error fail; on a frame,
hand it to `filterEncodeWriteFrame`. -/
def decDrain (s : StreamModel) : List DecStep → List Ev × Option String
  | [] => ([], none)
  | DecStep.frame fc :: rest =>
    let fr := filterEncodeWriteFrame s false fc
    let evs := Ev.decRecv s.sid RK.ok :: fr.1
    match fr.2 with
    | some m => (evs, some ("main: filtering, encoding and writing frame failed: " ++ m))
    | none =>
      let r := decDrain s rest
      (evs ++ r.1, r.2)
  | DecStep.eagain :: _ => ([Ev.decRecv s.sid RK.eagain], none)
  | DecStep.eof :: _ => ([Ev.decRecv s.sid RK.eof], none)
  | DecStep.fatal :: _ => ([Ev.decRecv s.sid RK.fatal], some "main: receiving frame failed")

/-- Scripted result of one `inputFormatContext.ReadFrame` call: a non-EOF
read error, or a packet for input stream `sid` together with the script
of its decode handling.  End of the script models `ErrEof`. -/
inductive DemuxStep
  | readErr
  | pkt (sid : Nat) (dc : DecCall)
deriving DecidableEq

/-- Lookup of `streams[pkt.StreamIndex()]`. -/
def lookupStream (streams : List StreamModel) (sid : Nat) : Option StreamModel :=
  streams.find? (fun s => s.sid == sid)

/-- The demux loop (main.go lines 452-498): read a packet; stop cleanly at
`EOF`, fail on another read error; discard packets of unmapped streams;
otherwise rescale the packet from the input stream time base to the
decoder time base, send it to the decoder and run the decode-drain
loop.  A fatal result of the drain aborts the whole loop; `EAGAIN` and
`EOF` drain results both continue with the next packet. -/
def demuxLoop (streams : List StreamModel) : List DemuxStep → List Ev × Option String
  | [] => ([], none)
  | DemuxStep.readErr :: _ => ([Ev.readFail], some "main: reading frame failed")
  | DemuxStep.pkt sid dc :: rest =>
    match lookupStream streams sid with
    | none =>
      let r := demuxLoop streams rest
      (Ev.readPkt sid :: r.1, r.2)
    | some s =>
      let p0 : Packet := { streamIndex := sid, tb := s.inTB }
      let p1 := rescaleTs p0 s.inTB s.decTB
      let evs := [Ev.readPkt sid, Ev.sendPacket s.sid p1]
      if dc.sendOk then
        let d := decDrain s dc.steps
        match d.2 with
        | some m => (evs ++ d.1, some m)
        | none =>
          let r := demuxLoop streams rest
          (evs ++ d.1 ++ r.1, r.2)
      else
        (evs, some "main: sending packet failed")

/-- Per-pipeline flush script: the stream data, the script of the flushing
`filterEncodeWriteFrame(nil, ...)` call and the script of the flushing
`encodeWriteFrame(nil, ...)` call. -/
structure FlushPlan where
  s : StreamModel
  fc : FilterCall
  ec : EncCall
deriving DecidableEq

/-- Flush of one pipeline (main.go lines 501-515): first the filter step
with the nil sentinel, then — only if it succeeded — the encoder with its
own nil sentinel. -/
def flushOne (p : FlushPlan) : List Ev × Option String :=
  let f := filterEncodeWriteFrame p.s true p.fc
  match f.2 with
  | some m => (f.1, some ("main: filtering, encoding and writing frame failed: " ++ m))
  | none =>
    let e := encodeWriteFrame p.s true p.ec
    match e.2 with
    | some m => (f.1 ++ e.1, some ("main: encoding and writing frame failed: " ++ m))
    | none => (f.1 ++ e.1, none)

/-- The flush loop over all pipelines (main.go lines 500-515). -/
def flushLoop : List FlushPlan → List Ev × Option String
  | [] => ([], none)
  | p :: rest =>
    let f := flushOne p
    match f.2 with
    | some m => (f.1, some m)
    | none =>
      let r := flushLoop rest
      (f.1 ++ r.1, r.2)

/-- The tail of the handler (main.go lines 500-522): flush every pipeline,
then write the container trailer; a trailer error is fatal. -/
def flushAndTrailer (ps : List FlushPlan) (trailerErr : Option String) :
    List Ev × Option String :=
  let f := flushLoop ps
  match f.2 with
  | some m => (f.1, some m)
  | none =>
    (f.1 ++ [Ev.writeTrailer],
      match trailerErr with
      | some e => some ("main: writing trailer failed: " ++ e)
      | none => none)

/-! ## The request handler -/

/-- The `TranscodeTask` struct: the parsed form fields plus the response
fields `Success`, `Status` and `Message` serialized back to the caller. -/
structure Task where
  AudioUrl : String
  MediaType : String
  Channels : Int
  SampleRate : Int
  Success : Bool
  Status : Nat
  Message : String
deriving DecidableEq

/-- The `supportedEncCodecs` map as populated in `main` (main.go lines
54-57); a Go map lookup of a missing key yields the empty string. -/
def supportedEncCodecs (mediaType : String) : String :=
  if mediaType = "wav" then "pcm_s16le"
  else if mediaType = "raw" then "pcm_s16le"
  else ""

/-- Parameter normalization at the top of the handler (main.go lines
69-86): clamp channels with the two ifs `< 1` and `> 2`, clamp the sample
rate with the two ifs `< 16000` and `> 48000`, then initialize
`Success = false` and `Status = http.StatusOK`. -/
def clampTask (t : Task) : Task :=
  let c1 := if t.Channels < 1 then 2 else t.Channels
  let c2 := if c1 > 2 then 2 else c1
  let r1 := if t.SampleRate < 16000 then 44100 else t.SampleRate
  let r2 := if r1 > 48000 then 48000 else r1
  { t with Channels := c2, SampleRate := r2, Success := false, Status := 200 }

/-- `channels2Layout` (main.go lines 600-608). -/
def channels2Layout (channels : Int) : Nat :=
  if channels = 1 then
    -- mono (0x4)
    4
  else
    -- left (0x1) + right (0x2)
    3

/-- The single front-center (mono) channel layout, `0x4`. -/
def monoLayout : Nat := 4

/-- The stereo left (0x1) + right (0x2) channel layout, `0x3`. -/
def stereoLayout : Nat := 3

/-- A fatal exit of the handler: a JSON error response built from the
task, or a Go runtime panic. -/
inductive Fail
  | resp (t : Task)
  | panic (msg : String)
deriving DecidableEq

deriving instance DecidableEq for Except

/-- A handler computation: the trace of emitted events paired with either
a result or a fatal exit. -/
abbrev M (α : Type) : Type := List Ev × Except Fail α

/-- Sequencing of handler computations: a fatal exit short-circuits, and
event traces accumulate in order. -/
def mbind {α β : Type} (x : M α) (f : α → M β) : M β :=
  match x with
  | (tr, Except.error e) => (tr, Except.error e)
  | (tr, Except.ok a) =>
    let y := f a
    (tr ++ y.1, y.2)

/-- An error return site of the handler: set `task.Status`, set
`task.Message` when the site writes it (several sites only set the local
`err` and leave the message untouched), and return `ct.JSON(task)`. -/
def throwTask {α : Type} (t : Task) (status : Nat) (msg : Option String) : Except Fail α :=
  Except.error (Fail.resp { t with Status := status, Message := msg.getD t.Message })

/-- Go's `strings.ToLower` on ASCII identifiers. -/
def toLowerStr (s : String) : String := s.map Char.toLower

/-- A codec context with the fields the handler reads or writes. -/
structure CodecCtx where
  mediaType : MT
  channels : Int
  channelLayout : Nat
  sampleFormat : String
  sampleRate : Int
  timeBase : TB
  globalHeader : Bool
deriving DecidableEq

/-- An input stream as probed by `FindStreamInfo`: its index, media type
and codec parameters. -/
structure InStream where
  index : Nat
  mediaType : MT
  channels : Int
  sampleFormat : String
  sampleRate : Int
  timeBase : TB
  globalHeader : Bool
deriving DecidableEq

/-- Oracle results for the per-stream decoder setup calls. -/
structure DecSetup where
  findDecoderOk : Bool
  allocCtxOk : Bool
  toCtxErr : Option String
  openErr : Option String
deriving DecidableEq

/-- Oracle results for the per-stream output/encoder setup calls,
including the encoder's advertised channel layouts and sample formats. -/
structure EncSetup where
  newStreamOk : Bool
  outIndex : Nat
  findEncoderOk : Bool
  allocCtxOk : Bool
  channelLayouts : List Nat
  sampleFormats : List String
  openErr : Option String
  fromCtxErr : Option String
deriving DecidableEq

/-- Oracle results for the per-stream filter graph construction calls. -/
structure FilterSetup where
  allocGraphOk : Bool
  allocOutputsOk : Bool
  allocInputsOk : Bool
  findBuffersrcOk : Bool
  findBuffersinkOk : Bool
  srcCtxErr : Option String
  sinkCtxErr : Option String
  parseErr : Option String
  configureErr : Option String
deriving DecidableEq

/-- Result of `ioutil.TempFile`: per its contract, on error the returned
file handle is nil. -/
inductive TempFileResult
  | ok (f : Nat)
  | fail (e : String)
deriving DecidableEq

/-- The oracle environment of one request: the results of every native or
OS call the handler makes, plus the scripts of the transcode loops. -/
structure Env where
  allocInputFmtOk : Bool
  openInputErr : Option String
  findInfoErr : Option String
  inputStreams : List InStream
  decSetup : Nat → DecSetup
  tempFile : TempFileResult
  allocOutFmtErr : Option String
  allocOutFmtNil : Bool
  encSetup : Nat → EncSetup
  outputNofile : Bool
  ioOpenErr : Option String
  headerErr : Option String
  filterSetup : Nat → FilterSetup
  demuxScript : List DemuxStep
  flushFilter : Nat → FilterCall
  flushEnc : Nat → EncCall
  trailerErr : Option String

/-- A per-stream pipeline after the input stage: the Go `stream` struct
with `inputStream`, `decCodec`, `decCodecContext` and `decFrame` set. -/
structure Pipeline where
  sid : Nat
  inputTB : TB
  decCtx : CodecCtx
deriving DecidableEq

/-- A pipeline after negotiation: encoder context and output stream
populated. -/
structure Pipeline2 where
  base : Pipeline
  encCtx : CodecCtx
  outIndex : Nat
  outTB : TB
deriving DecidableEq

/-- Input open phase (main.go lines 107-127): alloc the input format
context (nil is fatal), `OpenInput`, `FindStreamInfo`. -/
def openInputPhase (env : Env) (t : Task) : M Unit :=
  if ¬ env.allocInputFmtOk then
    ([], throwTask t 400 (some "main: input format context is nil"))
  else
    match env.openInputErr with
    | some e => ([Ev.alloc "inputFormatContext"], throwTask t 400 (some ("main: opening input failed: " ++ e)))
    | none =>
      match env.findInfoErr with
      | some e => ([Ev.alloc "inputFormatContext"], throwTask t 400 (some ("main: finding stream info failed: " ++ e)))
      | none => ([Ev.alloc "inputFormatContext"], Except.ok ())

/-- Per-stream decoder setup (main.go lines 130-182): skip non-audio
streams; find the decoder (nil sets only `err` and the status — the
message is left unchanged), alloc the codec context (likewise), copy the
codec parameters, normalize the channel layout via `channels2Layout` of
the context's channel count, open the decoder, alloc the decode frame. -/
def setupDecStream (env : Env) (t : Task) (is : InStream) : M (Option Pipeline) :=
  if is.mediaType ≠ MT.audio then
    ([], Except.ok none)
  else
    let ds := env.decSetup is.index
    if ¬ ds.findDecoderOk then
      ([], throwTask t 400 none)
    else if ¬ ds.allocCtxOk then
      ([], throwTask t 400 none)
    else
      match ds.toCtxErr with
      | some e =>
        ([Ev.alloc "decCodecContext"],
          throwTask t 400 (some ("main: updating codec context failed: " ++ e)))
      | none =>
        let ctx0 : CodecCtx :=
          { mediaType := is.mediaType, channels := is.channels, channelLayout := 0,
            sampleFormat := is.sampleFormat, sampleRate := is.sampleRate,
            timeBase := is.timeBase, globalHeader := is.globalHeader }
        -- SetChannelLayout(channels2Layout(decCodecContext.Channels())) (line 167)
        let ctx1 := { ctx0 with channelLayout := channels2Layout ctx0.channels }
        match ds.openErr with
        | some e =>
          ([Ev.alloc "decCodecContext"],
            throwTask t 400 (some ("main: opening codec context failed: " ++ e)))
        | none =>
          ([Ev.alloc "decCodecContext", Ev.alloc "decFrame"],
            Except.ok (some { sid := is.index, inputTB := is.timeBase, decCtx := ctx1 }))

/-- The input stream loop, in stream order. -/
def setupDecStreams (env : Env) (t : Task) : List InStream → M (List Pipeline)
  | [] => ([], Except.ok [])
  | is :: rest =>
    mbind (setupDecStream env t is) fun p? =>
      mbind (setupDecStreams env t rest) fun ps =>
        ([], Except.ok (match p? with | none => ps | some p => p :: ps))

/-- Outcome of the temp-file step. -/
inductive TempOut
  | opened (f : Nat)
  | errResp (msg : String)
  | panicked
deriving DecidableEq

/-- `f.Name()` on an `*os.File`: dereferences the receiver, so a nil
handle panics (modelled as `none`). -/
def fileName : Option Nat → Option String
  | none => none
  | some f => some ("transcode_" ++ toString f)

/-- The temp-file step (main.go lines 185-191):
`f, err := ioutil.TempFile(...)` followed by `defer os.Remove(f.Name())`
and only then the `err != nil` check.  The argument `f.Name()` of the
deferred call is evaluated at the `defer` statement itself, before the
error check, so a failing `TempFile` (which returns a nil handle)
dereferences nil there. -/
def tempFilePhase (r : TempFileResult) : TempOut :=
  let f : Option Nat := match r with | TempFileResult.ok h => some h | TempFileResult.fail _ => none
  let errv : Option String := match r with | TempFileResult.ok _ => none | TempFileResult.fail e => some e
  match fileName f with
  | none => TempOut.panicked
  | some _name =>
    match errv with
    | some e => TempOut.errResp ("main: get temp output file failed: " ++ e)
    | none => TempOut.opened (match f with | some h => h | none => 0)

/-- The temp-file step embedded in the handler. -/
def tempPhase (env : Env) (t : Task) : M Nat :=
  match tempFilePhase env.tempFile with
  | TempOut.opened f => ([], Except.ok f)
  | TempOut.errResp m => ([], throwTask t 400 (some m))
  | TempOut.panicked =>
    ([], Except.error (Fail.panic "runtime error: invalid memory address or nil pointer dereference"))

/-- Alloc of the output format context (main.go lines 200-209): an error
sets the message; a nil context sets only `err` and the status. -/
def allocOutputPhase (env : Env) (t : Task) : M Unit :=
  match env.allocOutFmtErr with
  | some e =>
    ([], throwTask t 400 (some ("main: allocating output format context failed: " ++ e)))
  | none =>
    if env.allocOutFmtNil then
      ([], throwTask t 400 none)
    else
      ([Ev.alloc "outputFormatContext"], Except.ok ())

/-- Per-stream negotiation (main.go lines 212-322): create the output
stream, reject non-audio decoder contexts, resolve the encoder name via
`supportedEncCodecs` on the lowercased media type, find and alloc the
encoder; derive the target channel layout from the request's channel
count via `channels2Layout` and fail when the encoder advertises layouts
that do not contain it (only `err` is set, not the message); keep the
decoder's sample format unless the encoder advertises formats without it
(then the encoder's first); copy sample rate from the request and time
base from the decoder; propagate the global-header flag; open the
encoder; write the codec parameters onto the output stream and set its
time base from the encoder. -/
def negotiateStream (env : Env) (t : Task) (p : Pipeline) : M Pipeline2 :=
  let es := env.encSetup p.sid
  if ¬ es.newStreamOk then
    ([], throwTask t 400 none)
  else if p.decCtx.mediaType ≠ MT.audio then
    ([], throwTask t 400 none)
  else
    let mt := toLowerStr t.MediaType
    let _encCodecName := if supportedEncCodecs mt ≠ "" then supportedEncCodecs mt else mt
    if ¬ es.findEncoderOk then
      ([], throwTask t 400 none)
    else if ¬ es.allocCtxOk then
      ([], throwTask t 400 none)
    else
      let channelLayout := channels2Layout t.Channels
      if es.channelLayouts ≠ [] ∧ channelLayout ∉ es.channelLayouts then
        ([Ev.alloc "encCodecContext"], throwTask t 400 none)
      else
        let sf0 := p.decCtx.sampleFormat
        let sf :=
          if es.sampleFormats ≠ [] ∧ sf0 ∉ es.sampleFormats then es.sampleFormats.headD sf0
          else sf0
        let encCtx0 : CodecCtx :=
          { mediaType := MT.audio, channels := t.Channels, channelLayout := channelLayout,
            sampleFormat := sf, sampleRate := t.SampleRate, timeBase := p.decCtx.timeBase,
            globalHeader := false }
        let encCtx1 :=
          if p.decCtx.globalHeader then { encCtx0 with globalHeader := true } else encCtx0
        match es.openErr with
        | some e =>
          ([Ev.alloc "encCodecContext"],
            throwTask t 400 (some ("main: opening codec context failed: " ++ e)))
        | none =>
          match es.fromCtxErr with
          | some e =>
            ([Ev.alloc "encCodecContext"],
              throwTask t 400 (some ("main: updating codec parameters failed: " ++ e)))
          | none =>
            ([Ev.alloc "encCodecContext"],
              Except.ok { base := p, encCtx := encCtx1, outIndex := es.outIndex,
                          outTB := encCtx1.timeBase })

/-- The output stream loop, in input stream order (the Go code iterates
the input streams and looks each up in the pipeline map). -/
def negotiateStreams (env : Env) (t : Task) : List Pipeline → M (List Pipeline2)
  | [] => ([], Except.ok [])
  | p :: rest =>
    mbind (negotiateStream env t p) fun p2 =>
      mbind (negotiateStreams env t rest) fun ps =>
        ([], Except.ok (p2 :: ps))

/-- The io-context step (main.go lines 325-339): only when the output
format does not have the nofile flag. -/
def ioPhase (env : Env) (t : Task) : M Unit :=
  if env.outputNofile then
    ([], Except.ok ())
  else
    match env.ioOpenErr with
    | some e =>
      ([Ev.alloc "ioContext"], throwTask t 400 (some ("main: opening io context failed: " ++ e)))
    | none => ([Ev.alloc "ioContext"], Except.ok ())

/-- `WriteHeader` (main.go lines 342-346). -/
def headerPhase (env : Env) (t : Task) : M Unit :=
  match env.headerErr with
  | some e => ([], throwTask t 400 (some ("main: writing header failed: " ++ e)))
  | none => ([], Except.ok ())

/-- Per-stream filter graph construction (main.go lines 350-445): alloc
the graph and the two in/out descriptors (nil handles set only `err`),
find the `abuffer` and `abuffersink` filters; create the buffersrc
context with the name `"in"` (line 401) and the buffersink context also
with the name `"in"` (line 406); name the outputs descriptor `"in"` and
bind it to the buffersrc context, name the inputs descriptor `"out"` and
bind it to the buffersink context (lines 413-422); parse the `aresample`
description and configure the graph; alloc the filter frame and the
encode packet. -/
def buildFilter (fs : FilterSetup) (t : Task) : M Unit :=
  if ¬ fs.allocGraphOk then
    ([], throwTask t 400 none)
  else if ¬ fs.allocOutputsOk then
    ([Ev.alloc "filterGraph"], throwTask t 400 none)
  else if ¬ fs.allocInputsOk then
    ([Ev.alloc "filterGraph", Ev.alloc "outputs"], throwTask t 400 none)
  else if ¬ fs.findBuffersrcOk then
    ([Ev.alloc "filterGraph", Ev.alloc "outputs", Ev.alloc "inputs"], throwTask t 400 none)
  else if ¬ fs.findBuffersinkOk then
    ([Ev.alloc "filterGraph", Ev.alloc "outputs", Ev.alloc "inputs"], throwTask t 400 none)
  else
    let pre := [Ev.alloc "filterGraph", Ev.alloc "outputs", Ev.alloc "inputs"]
    match fs.srcCtxErr with
    | some e =>
      (pre ++ [Ev.newFilterCtx "abuffer" "in"],
        throwTask t 400 (some ("main: creating buffersrc context failed: " ++ e)))
    | none =>
      match fs.sinkCtxErr with
      | some e =>
        (pre ++ [Ev.newFilterCtx "abuffer" "in", Ev.newFilterCtx "abuffersink" "in"],
          throwTask t 400 (some ("main: creating buffersink context failed: " ++ e)))
      | none =>
        let pre2 := pre ++
          [Ev.newFilterCtx "abuffer" "in", Ev.newFilterCtx "abuffersink" "in",
            Ev.padBind "in" "abuffer", Ev.padBind "out" "abuffersink"]
        match fs.parseErr with
        | some e => (pre2, throwTask t 400 (some ("main: parsing filter failed: " ++ e)))
        | none =>
          match fs.configureErr with
          | some e => (pre2, throwTask t 400 (some ("main: configuring filter failed: " ++ e)))
          | none => (pre2 ++ [Ev.alloc "filterFrame", Ev.alloc "encPkt"], Except.ok ())

/-- The filter loop over all pipelines. -/
def filterPhase (env : Env) (t : Task) : List Pipeline2 → M Unit
  | [] => ([], Except.ok ())
  | p :: rest =>
    mbind (buildFilter (env.filterSetup p.base.sid) t) fun _ =>
      filterPhase env t rest

/-- The loop-level stream data of a negotiated pipeline. -/
def mkStreamModel (p : Pipeline2) : StreamModel :=
  { sid := p.base.sid, inTB := p.base.inputTB, decTB := p.base.decCtx.timeBase,
    encTB := p.encCtx.timeBase, outTB := p.outTB, outIndex := p.outIndex }

/-- The demux loop embedded in the handler: a fatal loop result becomes a
400 response carrying the loop's message. -/
def demuxPhase (t : Task) (streams : List StreamModel) (script : List DemuxStep) : M Unit :=
  let r := demuxLoop streams script
  match r.2 with
  | some m => (r.1, throwTask t 400 (some m))
  | none => (r.1, Except.ok ())

/-- The flush loop and the trailer write embedded in the handler. -/
def flushPhase (env : Env) (t : Task) (streams : List StreamModel) : M Unit :=
  let plans := streams.map (fun s => { s := s, fc := env.flushFilter s.sid, ec := env.flushEnc s.sid : FlushPlan })
  let r := flushAndTrailer plans env.trailerErr
  match r.2 with
  | some m => (r.1, throwTask t 400 (some m))
  | none => (r.1, Except.ok ())

/-- The whole handler body (main.go lines 60-527) after body parsing:
clamp the parameters, validate the media type against
`supportedEncCodecs` before anything is allocated, then run the input,
temp-file, output, negotiation, io, header, filter, demux and flush
phases, and finally return the produced file with `Success = true`. -/
def runTranscode (env : Env) (t0 : Task) : M Task :=
  let t := clampTask t0
  if supportedEncCodecs t.MediaType = "" then
    ([], throwTask t 415 (some ("main: codec not supported: " ++ t.MediaType)))
  else
    mbind (openInputPhase env t) fun _ =>
      mbind (setupDecStreams env t env.inputStreams) fun pipes =>
        mbind (tempPhase env t) fun _f =>
          mbind (allocOutputPhase env t) fun _ =>
            mbind (negotiateStreams env t pipes) fun pipes2 =>
              mbind (ioPhase env t) fun _ =>
                mbind (headerPhase env t) fun _ =>
                  mbind (filterPhase env t pipes2) fun _ =>
                    mbind ([Ev.alloc "pkt"], Except.ok ()) fun _ =>
                      let streams := pipes2.map mkStreamModel
                      mbind (demuxPhase t streams env.demuxScript) fun _ =>
                        mbind (flushPhase env t streams) fun _ =>
                          ([], Except.ok { t with Success := true })

/-- The response as observed by the HTTP caller. -/
inductive Outcome
  | json (t : Task)
  | file (t : Task)
  | panicked (msg : String)
deriving DecidableEq

/-- Run the handler and classify its outcome: a fatal response is a JSON
body built from the task; success sends the produced file. -/
def runHandler (env : Env) (t0 : Task) : Outcome × List Ev :=
  match runTranscode env t0 with
  | (tr, Except.ok t) => (Outcome.file t, tr)
  | (tr, Except.error (Fail.resp t)) => (Outcome.json t, tr)
  | (tr, Except.error (Fail.panic m)) => (Outcome.panicked m, tr)

/-! ## Event classifiers and trace checkers -/

/-- Is this event a native allocation? -/
def isAlloc : Ev → Bool
  | Ev.alloc _ => true
  | _ => false

/-- Is this event an `encPkt.Unref()` call? -/
def isEncUnref : Ev → Bool
  | Ev.encUnref _ => true
  | _ => false

/-- Is this event the delivery of the flush sentinel (`SendFrame(nil)`) to
stream `sid`'s encoder? -/
def isEncSendFlush (sid : Nat) : Ev → Bool
  | Ev.encSend j b => j == sid && b
  | _ => false

/-- Is this event a `SendPacket` to a decoder? -/
def isSendPacket : Ev → Bool
  | Ev.sendPacket _ _ => true
  | _ => false

/-- Is this outcome the temp-file error-return branch? -/
def isErrResp : TempOut → Bool
  | TempOut.errResp _ => true
  | _ => false

/-- Trace check for the claim that the encode packet is cleared before
*every* `ReceivePacket`: scanning the trace, each `encRecv` for `sid`
must be preceded by an `encUnref` for `sid` issued since the previous
`encRecv`. -/
def clearedBeforeEachRecv (sid : Nat) : Bool → List Ev → Bool
  | _, [] => true
  | c, Ev.encUnref j :: rest =>
    if j == sid then clearedBeforeEachRecv sid true rest
    else clearedBeforeEachRecv sid c rest
  | c, Ev.encRecv j _ :: rest =>
    if j == sid then c && clearedBeforeEachRecv sid false rest
    else clearedBeforeEachRecv sid c rest
  | c, _ :: rest => clearedBeforeEachRecv sid c rest

/-- After the first decoder end-of-stream of stream `sid`, is no further
packet sent to `sid`'s decoder?  (True would mean the decoder's EOF stops
the demux loop for that pipeline.) -/
def noSendAfter (sid : Nat) : List Ev → Bool
  | [] => true
  | Ev.sendPacket j _ :: rest => if j == sid then false else noSendAfter sid rest
  | _ :: rest => noSendAfter sid rest

/-- See `noSendAfter`: scans for the first `decRecv sid eof`. -/
def stopsDemuxAfterEof (sid : Nat) : List Ev → Bool
  | [] => true
  | Ev.decRecv j RK.eof :: rest =>
    if j == sid then noSendAfter sid rest else stopsDemuxAfterEof sid rest
  | _ :: rest => stopsDemuxAfterEof sid rest

/-! ## Concrete demonstration data -/

/-- A concrete pipeline with four pairwise distinct time bases, so that
rescaling issues are observable. -/
def demoStream : StreamModel :=
  { sid := 0, inTB := { num := 1, den := 1000 }, decTB := { num := 1, den := 48000 },
    encTB := { num := 1, den := 44100 }, outTB := { num := 1, den := 90000 }, outIndex := 0 }

/-- An encode call whose encoder yields two packets and then `EAGAIN`. -/
def demoEncTwoPkts : EncCall :=
  { sendOk := true, steps := [EncStep.pkt true, EncStep.pkt true, EncStep.eagain] }

/-! ## C5 -/

/-- C5: for every request, the handler's parameter normalization maps a
channel count to itself exactly when it is 1 or 2 and to 2 otherwise, and
maps a sample rate below 16000 to 44100, above 48000 to 48000, and in
`[16000, 48000]` (in particular the boundaries 16000 and 48000) to
itself. -/
theorem clamp_channels_sample_rate (t : Task) :
    (clampTask t).Channels = (if t.Channels = 1 ∨ t.Channels = 2 then t.Channels else 2)
    ∧ (clampTask t).SampleRate =
        (if t.SampleRate < 16000 then 44100
          else if t.SampleRate > 48000 then 48000 else t.SampleRate) := by
  constructor <;> simp only [clampTask] <;> split_ifs <;> omega

/-! ## C10 -/

/-- C10: when `ioutil.TempFile` fails (returning an error and a nil file
handle), the handler panics with a nil dereference while evaluating
`f.Name()` for the deferred `os.Remove` — which is registered before the
error check — and the error-return branch for temp-file failure is
unreachable for every possible `TempFile` result. -/
theorem tempfile_error_panics_error_branch_unreachable :
    (∀ e, tempFilePhase (TempFileResult.fail e) = TempOut.panicked)
    ∧ (∀ r, isErrResp (tempFilePhase r) = false) := by
  constructor
  · intro e; rfl
  · intro r; cases r <;> rfl

/-! ## C6 -/

/-- C6 counterexample: in an encode step in which the encoder yields two
packets, the reusable encode packet is *not* unreferenced before each
receive — the trace fails the cleared-before-each-receive check, because
the only `Unref` happens once, before the frame is sent. -/
theorem enc_packet_not_cleared_before_each_recv_cex :
    clearedBeforeEachRecv 0 false (encodeWriteFrame demoStream false demoEncTwoPkts).1 = false := by
  decide

/-- C6 (amended): in the encode step the reusable encode packet is
unreferenced exactly once, before the frame is sent to the encoder, and
never inside the encode-drain loop (so not before each receive). -/
theorem enc_packet_unref_once_before_send (s : StreamModel) (flush : Bool) (c : EncCall) :
    (encodeWriteFrame s flush c).1
      = Ev.encUnref s.sid :: Ev.encSend s.sid flush ::
          (if c.sendOk then (encDrain s c.steps).1 else [])
    ∧ ((encDrain s c.steps).1.all fun e => ! isEncUnref e) = true := by
  constructor
  · by_cases hc : c.sendOk <;> simp [encodeWriteFrame, hc]
  · induction c.steps with
    | nil => rfl
    | cons head tail ih =>
      cases head with
      | pkt w =>
        cases w with
        | false => rfl
        | true =>
          have h1 : (encDrain s (EncStep.pkt true :: tail)).1
              = [Ev.encRecv s.sid RK.ok,
                  Ev.writePkt s.sid { streamIndex := s.outIndex, tb := s.outTB }]
                ++ (encDrain s tail).1 := rfl
          rw [h1, List.all_append, ih]
          rfl
      | eagain => rfl
      | eof => rfl
      | fatal => rfl

/-! ## C8 -/

/-- C8: `channels2Layout` returns the mono front-center layout exactly for
channel count 1 and the stereo left+right layout for every other count;
the input stage applies it to the decoder context's raw channel count,
and negotiation applies it to the request's channel count. -/
theorem channels2Layout_mono_stereo_and_sites :
    (∀ c : Int, channels2Layout c = monoLayout ↔ c = 1)
    ∧ (∀ c : Int, c ≠ 1 → channels2Layout c = stereoLayout)
    ∧ (∀ env t is tr p, setupDecStream env t is = (tr, Except.ok (some p)) →
        p.decCtx.channelLayout = channels2Layout is.channels)
    ∧ (∀ env t p tr p2, negotiateStream env t p = (tr, Except.ok p2) →
        p2.encCtx.channelLayout = channels2Layout t.Channels) := by
  refine ⟨?_, ?_, ?_, ?_⟩
  · intro c
    by_cases h : c = 1 <;> simp [channels2Layout, monoLayout, h]
  · intro c h
    simp [channels2Layout, stereoLayout, h]
  · intro env t is tr p h
    simp only [setupDecStream] at h
    split at h
    · simp at h
    · split at h
      · simp [throwTask] at h
      · split at h
        · simp [throwTask] at h
        · split at h
          · simp [throwTask] at h
          · split at h
            · simp [throwTask] at h
            · simp only [Prod.mk.injEq, Except.ok.injEq, Option.some.injEq] at h
              obtain ⟨-, hp⟩ := h
              subst hp
              rfl
  · intro env t p tr p2 h
    simp only [negotiateStream] at h
    split at h
    · simp [throwTask] at h
    · split at h
      · simp [throwTask] at h
      · split at h
        · simp [throwTask] at h
        · split at h
          · simp [throwTask] at h
          · split at h
            · simp [throwTask] at h
            · split at h
              · simp [throwTask] at h
              · split at h
                · simp [throwTask] at h
                · simp only [Prod.mk.injEq, Except.ok.injEq] at h
                  obtain ⟨-, hp⟩ := h
                  subst hp
                  cases p.decCtx.globalHeader <;> rfl

/-! ## Trace lemmas for the drain loops -/

/-- Events that can occur inside the decode/filter/encode drain loops; in
particular `sendPacket`, `readPkt`, `writeTrailer` and the setup events
cannot. -/
def loopEv : Ev → Bool
  | Ev.decRecv _ _ => true
  | Ev.filterAdd _ _ => true
  | Ev.filterUnref _ => true
  | Ev.sinkGet _ _ => true
  | Ev.resetPictureType _ => true
  | Ev.encUnref _ => true
  | Ev.encSend _ _ => true
  | Ev.encRecv _ _ => true
  | Ev.writePkt _ _ => true
  | _ => false

theorem encDrain_loopEv (s : StreamModel) (st : List EncStep) :
    ((encDrain s st).1.all loopEv) = true := by
  induction st with
  | nil => rfl
  | cons head tail ih =>
    cases head with
    | pkt w =>
      cases w with
      | false => rfl
      | true =>
        have h1 : (encDrain s (EncStep.pkt true :: tail)).1
            = [Ev.encRecv s.sid RK.ok,
                Ev.writePkt s.sid { streamIndex := s.outIndex, tb := s.outTB }]
              ++ (encDrain s tail).1 := rfl
        rw [h1, List.all_append, ih]
        rfl
    | eagain => rfl
    | eof => rfl
    | fatal => rfl

theorem ewf_loopEv (s : StreamModel) (fl : Bool) (c : EncCall) :
    ((encodeWriteFrame s fl c).1.all loopEv) = true := by
  by_cases hc : c.sendOk
  · have h1 : (encodeWriteFrame s fl c).1
        = [Ev.encUnref s.sid, Ev.encSend s.sid fl] ++ (encDrain s c.steps).1 := by
      simp [encodeWriteFrame, hc]
    rw [h1, List.all_append, encDrain_loopEv]
    rfl
  · have h1 : (encodeWriteFrame s fl c).1 = [Ev.encUnref s.sid, Ev.encSend s.sid fl] := by
      simp [encodeWriteFrame, hc]
    rw [h1]
    rfl

theorem filterDrain_loopEv (s : StreamModel) (st : List SinkStep) :
    ((filterDrain s st).1.all loopEv) = true := by
  induction st with
  | nil => rfl
  | cons head tail ih =>
    cases head with
    | frame ec =>
      rcases h2 : (encodeWriteFrame s false ec).2 with _ | m
      · have h1 : (filterDrain s (SinkStep.frame ec :: tail)).1
            = ([Ev.filterUnref s.sid, Ev.sinkGet s.sid RK.ok, Ev.resetPictureType s.sid]
                ++ (encodeWriteFrame s false ec).1) ++ (filterDrain s tail).1 := by
          simp [filterDrain, h2]
        rw [h1, List.all_append, List.all_append, ewf_loopEv, ih]
        rfl
      · have h1 : (filterDrain s (SinkStep.frame ec :: tail)).1
            = [Ev.filterUnref s.sid, Ev.sinkGet s.sid RK.ok, Ev.resetPictureType s.sid]
                ++ (encodeWriteFrame s false ec).1 := by
          simp [filterDrain, h2]
        rw [h1, List.all_append, ewf_loopEv]
        rfl
    | eagain => rfl
    | eof => rfl
    | fatal => rfl

theorem fewf_loopEv (s : StreamModel) (fl : Bool) (c : FilterCall) :
    ((filterEncodeWriteFrame s fl c).1.all loopEv) = true := by
  by_cases hc : c.addOk
  · have h1 : (filterEncodeWriteFrame s fl c).1
        = Ev.filterAdd s.sid fl :: (filterDrain s c.steps).1 := by
      simp [filterEncodeWriteFrame, hc]
    rw [h1, List.all_cons, filterDrain_loopEv]
    rfl
  · have h1 : (filterEncodeWriteFrame s fl c).1 = [Ev.filterAdd s.sid fl] := by
      simp [filterEncodeWriteFrame, hc]
    rw [h1]
    rfl

theorem decDrain_loopEv (s : StreamModel) (st : List DecStep) :
    ((decDrain s st).1.all loopEv) = true := by
  induction st with
  | nil => rfl
  | cons head tail ih =>
    cases head with
    | frame fc =>
      rcases h2 : (filterEncodeWriteFrame s false fc).2 with _ | m
      · have h1 : (decDrain s (DecStep.frame fc :: tail)).1
            = (Ev.decRecv s.sid RK.ok :: (filterEncodeWriteFrame s false fc).1)
              ++ (decDrain s tail).1 := by
          simp [decDrain, h2]
        rw [h1, List.all_append, List.all_cons, fewf_loopEv, ih]
        rfl
      · have h1 : (decDrain s (DecStep.frame fc :: tail)).1
            = Ev.decRecv s.sid RK.ok :: (filterEncodeWriteFrame s false fc).1 := by
          simp [decDrain, h2]
        rw [h1, List.all_cons, fewf_loopEv]
        rfl
    | eagain => rfl
    | eof => rfl
    | fatal => rfl

/-- A sendPacket event never occurs in a list all of whose events are
drain-loop events. -/
theorem no_sendPacket_of_loopEv {l : List Ev} (hl : l.all loopEv = true)
    {j : Nat} {q : Packet} (hm : Ev.sendPacket j q ∈ l) : False := by
  have := List.all_eq_true.mp hl _ hm
  simp [loopEv] at this

/-! Drain-loop traces contain no flush sentinel for the encoder. -/

theorem encDrain_noFlushSend (s : StreamModel) (st : List EncStep) :
    ((encDrain s st).1.all fun e => ! isEncSendFlush s.sid e) = true := by
  induction st with
  | nil => rfl
  | cons head tail ih =>
    cases head with
    | pkt w =>
      cases w with
      | false => rfl
      | true =>
        have h1 : (encDrain s (EncStep.pkt true :: tail)).1
            = [Ev.encRecv s.sid RK.ok,
                Ev.writePkt s.sid { streamIndex := s.outIndex, tb := s.outTB }]
              ++ (encDrain s tail).1 := rfl
        rw [h1, List.all_append, ih]
        rfl
    | eagain => rfl
    | eof => rfl
    | fatal => rfl

theorem ewf_false_noFlushSend (s : StreamModel) (c : EncCall) :
    ((encodeWriteFrame s false c).1.all fun e => ! isEncSendFlush s.sid e) = true := by
  by_cases hc : c.sendOk
  · have h1 : (encodeWriteFrame s false c).1
        = [Ev.encUnref s.sid, Ev.encSend s.sid false] ++ (encDrain s c.steps).1 := by
      simp [encodeWriteFrame, hc]
    rw [h1, List.all_append, encDrain_noFlushSend]
    simp [isEncSendFlush]
  · have h1 : (encodeWriteFrame s false c).1 = [Ev.encUnref s.sid, Ev.encSend s.sid false] := by
      simp [encodeWriteFrame, hc]
    rw [h1]
    simp [isEncSendFlush]

theorem filterDrain_noFlushSend (s : StreamModel) (st : List SinkStep) :
    ((filterDrain s st).1.all fun e => ! isEncSendFlush s.sid e) = true := by
  induction st with
  | nil => rfl
  | cons head tail ih =>
    cases head with
    | frame ec =>
      rcases h2 : (encodeWriteFrame s false ec).2 with _ | m
      · have h1 : (filterDrain s (SinkStep.frame ec :: tail)).1
            = ([Ev.filterUnref s.sid, Ev.sinkGet s.sid RK.ok, Ev.resetPictureType s.sid]
                ++ (encodeWriteFrame s false ec).1) ++ (filterDrain s tail).1 := by
          simp [filterDrain, h2]
        rw [h1, List.all_append, List.all_append, ewf_false_noFlushSend, ih]
        rfl
      · have h1 : (filterDrain s (SinkStep.frame ec :: tail)).1
            = [Ev.filterUnref s.sid, Ev.sinkGet s.sid RK.ok, Ev.resetPictureType s.sid]
                ++ (encodeWriteFrame s false ec).1 := by
          simp [filterDrain, h2]
        rw [h1, List.all_append, ewf_false_noFlushSend]
        rfl
    | eagain => rfl
    | eof => rfl
    | fatal => rfl

/-! Decompositions of successful calls. -/

theorem ewf_ok_decomp (s : StreamModel) (fl : Bool) (c : EncCall)
    (h : (encodeWriteFrame s fl c).2 = none) :
    (encodeWriteFrame s fl c).1
      = Ev.encUnref s.sid :: Ev.encSend s.sid fl :: (encDrain s c.steps).1 := by
  by_cases hc : c.sendOk
  · simp [encodeWriteFrame, hc]
  · simp [encodeWriteFrame, hc] at h

theorem fewf_ok_decomp (s : StreamModel) (fl : Bool) (c : FilterCall)
    (h : (filterEncodeWriteFrame s fl c).2 = none) :
    (filterEncodeWriteFrame s fl c).1
      = Ev.filterAdd s.sid fl :: (filterDrain s c.steps).1 := by
  by_cases hc : c.addOk
  · simp [filterEncodeWriteFrame, hc]
  · simp [filterEncodeWriteFrame, hc] at h

theorem flushOne_ok_parts (p : FlushPlan) (h : (flushOne p).2 = none) :
    (filterEncodeWriteFrame p.s true p.fc).2 = none
    ∧ (encodeWriteFrame p.s true p.ec).2 = none
    ∧ (flushOne p).1
        = (filterEncodeWriteFrame p.s true p.fc).1 ++ (encodeWriteFrame p.s true p.ec).1 := by
  rcases h1 : (filterEncodeWriteFrame p.s true p.fc).2 with _ | m
  · rcases h2 : (encodeWriteFrame p.s true p.ec).2 with _ | m2
    · refine ⟨rfl, rfl, ?_⟩
      simp [flushOne, h1, h2]
    · exfalso
      simp [flushOne, h1, h2] at h
  · exfalso
    simp [flushOne, h1] at h

theorem flushLoop_ok (ps : List FlushPlan) (h : ∀ p ∈ ps, (flushOne p).2 = none) :
    flushLoop ps = ((ps.map fun p => (flushOne p).1).flatten, none) := by
  induction ps with
  | nil => rfl
  | cons p rest ih =>
    have hp := h p (List.mem_cons_self _ _)
    have hr := ih (fun q hq => h q (List.mem_cons_of_mem _ hq))
    simp [flushLoop, hp, hr]

/-! ## C1 -/

/-- C1: end-of-input flushing.  When every per-pipeline flush succeeds,
the trace of the handler tail (main.go lines 500-522) is exactly the
concatenation, pipeline by pipeline, of: the filter step invoked with the
no-frame sentinel (`filterAdd _ true`) followed by its complete drain
loop — a segment that contains no encoder flush sentinel — and only then
the encoder's own no-frame flush (`encSend _ true`) with its drain; after
the last pipeline the single trailer write follows, and a trailer-write
failure still surfaces as the fatal result. -/
theorem flush_order_filter_then_encoder_then_trailer
    (ps : List FlushPlan) (trailerErr : Option String)
    (h : ∀ p ∈ ps, (flushOne p).2 = none) :
    flushAndTrailer ps trailerErr
      = ((ps.map fun p => (flushOne p).1).flatten ++ [Ev.writeTrailer],
          trailerErr.map fun e => "main: writing trailer failed: " ++ e)
    ∧ ∀ p ∈ ps,
        (flushOne p).1
          = (Ev.filterAdd p.s.sid true :: (filterDrain p.s p.fc.steps).1)
            ++ (Ev.encUnref p.s.sid :: Ev.encSend p.s.sid true :: (encDrain p.s p.ec.steps).1)
        ∧ ((Ev.filterAdd p.s.sid true :: (filterDrain p.s p.fc.steps).1).all
            fun e => ! isEncSendFlush p.s.sid e) = true := by
  constructor
  · rw [flushAndTrailer.eq_def, flushLoop_ok ps h]
    cases trailerErr <;> rfl
  · intro p hp
    obtain ⟨h1, h2, h3⟩ := flushOne_ok_parts p (h p hp)
    refine ⟨?_, ?_⟩
    · rw [h3, fewf_ok_decomp _ _ _ h1, ewf_ok_decomp _ _ _ h2]
    · rw [List.all_cons, filterDrain_noFlushSend]
      rfl

/-! ## C2 -/

theorem lookupStream_sid {streams : List StreamModel} {sid : Nat} {s : StreamModel}
    (h : lookupStream streams sid = some s) : s.sid = sid := by
  have := List.find?_some h
  simpa using this

/-- A demux script in which the decoder first reports end of stream and a
further packet for the same pipeline follows. -/
def demoDecEofScript : List DemuxStep :=
  [DemuxStep.pkt 0 { sendOk := true, steps := [DecStep.eof] },
    DemuxStep.pkt 0 { sendOk := true, steps := [DecStep.eagain] }]

/-- C2 counterexample: after the decoder reports "end of stream" for
pipeline 0, the demux loop does *not* stop for that pipeline — a further
packet is still sent to its decoder, so the trace fails the
stops-after-EOF check.  In the code (main.go line 483) `ErrEof` and
`ErrEagain` are handled by the same `break` of the inner loop only. -/
theorem decoder_eof_does_not_stop_demux_cex :
    stopsDemuxAfterEof 0 (demuxLoop [demoStream] demoDecEofScript).1 = false := by
  decide

/-- C2 (amended): in the per-packet decode-drain loop, "needs more input"
and "end of stream" from the decoder both stop only the inner drain loop,
and in both cases the demux loop continues with the remaining packets;
any other non-zero decode result aborts the whole request as fatal (the
remaining packets are never processed). -/
theorem decode_eof_eagain_stop_inner_only
    :
    (∀ (s : StreamModel) (tail : List DecStep),
        decDrain s (DecStep.eagain :: tail) = ([Ev.decRecv s.sid RK.eagain], none))
    ∧ (∀ (s : StreamModel) (tail : List DecStep),
        decDrain s (DecStep.eof :: tail) = ([Ev.decRecv s.sid RK.eof], none))
    ∧ (∀ (s : StreamModel) (tail : List DecStep),
        decDrain s (DecStep.fatal :: tail)
          = ([Ev.decRecv s.sid RK.fatal], some "main: receiving frame failed"))
    ∧ (∀ (streams : List StreamModel) (sid : Nat) (dc : DecCall) (rest : List DemuxStep)
          (s : StreamModel),
        lookupStream streams sid = some s → dc.sendOk = true →
        (decDrain s dc.steps).2 = none →
        demuxLoop streams (DemuxStep.pkt sid dc :: rest)
          = ([Ev.readPkt sid, Ev.sendPacket s.sid { streamIndex := sid, tb := s.decTB }]
              ++ (decDrain s dc.steps).1 ++ (demuxLoop streams rest).1,
            (demuxLoop streams rest).2))
    ∧ (∀ (streams : List StreamModel) (sid : Nat) (dc : DecCall) (rest : List DemuxStep)
          (s : StreamModel) (m : String),
        lookupStream streams sid = some s → dc.sendOk = true →
        (decDrain s dc.steps).2 = some m →
        demuxLoop streams (DemuxStep.pkt sid dc :: rest)
          = ([Ev.readPkt sid, Ev.sendPacket s.sid { streamIndex := sid, tb := s.decTB }]
              ++ (decDrain s dc.steps).1, some m)) := by
  refine ⟨fun s tail => rfl, fun s tail => rfl, fun s tail => rfl, ?_, ?_⟩
  · intro streams sid dc rest s hlk hsend hdec
    simp [demuxLoop, hlk, hsend, hdec, rescaleTs]
  · intro streams sid dc rest s m hlk hsend hdec
    simp [demuxLoop, hlk, hsend, hdec, rescaleTs]

/-! ## C3 -/

theorem sendPacket_pair_mem {streams : List StreamModel} {sid : Nat} {s : StreamModel}
    {j : Nat} {q : Packet}
    (hlk : lookupStream streams sid = some s)
    (h : Ev.sendPacket j q
          ∈ [Ev.readPkt sid, Ev.sendPacket s.sid { streamIndex := sid, tb := s.decTB }]) :
    ∃ s2, lookupStream streams j = some s2 ∧ q = { streamIndex := j, tb := s2.decTB } := by
  have hs := lookupStream_sid hlk
  simp only [List.mem_cons, List.not_mem_nil, or_false] at h
  rcases h with h | h
  · exact absurd h (by simp)
  · have hh : j = s.sid ∧ q = { streamIndex := sid, tb := s.decTB } := by
      simpa using h
    obtain ⟨hj, hq⟩ := hh
    subst hj
    refine ⟨s, ?_, ?_⟩
    · rw [hs]; exact hlk
    · rw [hq, hs]

theorem demux_sendPacket (streams : List StreamModel) :
    ∀ (script : List DemuxStep) (j : Nat) (q : Packet),
      Ev.sendPacket j q ∈ (demuxLoop streams script).1 →
      ∃ s, lookupStream streams j = some s ∧ q = { streamIndex := j, tb := s.decTB } := by
  intro script
  induction script with
  | nil => intro j q hm; simp [demuxLoop] at hm
  | cons step rest ih =>
    intro j q hm
    cases step with
    | readErr =>
      have h1 : (demuxLoop streams (DemuxStep.readErr :: rest)).1 = [Ev.readFail] := rfl
      rw [h1] at hm
      simp at hm
    | pkt sid dc =>
      rcases hlk : lookupStream streams sid with _ | s
      · have h1 : (demuxLoop streams (DemuxStep.pkt sid dc :: rest)).1
            = Ev.readPkt sid :: (demuxLoop streams rest).1 := by
          simp [demuxLoop, hlk]
        rw [h1] at hm
        rcases List.mem_cons.mp hm with h | h
        · exact absurd h (by simp)
        · exact ih j q h
      · by_cases hsend : dc.sendOk
        · rcases hdec : (decDrain s dc.steps).2 with _ | m
          · have h1 : (demuxLoop streams (DemuxStep.pkt sid dc :: rest)).1
                = ([Ev.readPkt sid, Ev.sendPacket s.sid { streamIndex := sid, tb := s.decTB }]
                    ++ (decDrain s dc.steps).1) ++ (demuxLoop streams rest).1 := by
              simp [demuxLoop, hlk, hsend, hdec, rescaleTs]
            rw [h1] at hm
            rcases List.mem_append.mp hm with h | h
            · rcases List.mem_append.mp h with h2 | h2
              · exact sendPacket_pair_mem hlk h2
              · exact absurd h2 (fun hh =>
                  no_sendPacket_of_loopEv (decDrain_loopEv s dc.steps) hh)
            · exact ih j q h
          · have h1 : (demuxLoop streams (DemuxStep.pkt sid dc :: rest)).1
                = [Ev.readPkt sid, Ev.sendPacket s.sid { streamIndex := sid, tb := s.decTB }]
                    ++ (decDrain s dc.steps).1 := by
              simp [demuxLoop, hlk, hsend, hdec, rescaleTs]
            rw [h1] at hm
            rcases List.mem_append.mp hm with h | h
            · exact sendPacket_pair_mem hlk h
            · exact absurd h (fun hh =>
                no_sendPacket_of_loopEv (decDrain_loopEv s dc.steps) hh)
        · have h1 : (demuxLoop streams (DemuxStep.pkt sid dc :: rest)).1
              = [Ev.readPkt sid, Ev.sendPacket s.sid { streamIndex := sid, tb := s.decTB }] := by
            simp [demuxLoop, hlk, hsend, rescaleTs]
          rw [h1] at hm
          exact sendPacket_pair_mem hlk hm

theorem encDrain_writePkt (s : StreamModel) (st : List EncStep) :
    ∀ (j : Nat) (q : Packet), Ev.writePkt j q ∈ (encDrain s st).1 →
      j = s.sid ∧ q = { streamIndex := s.outIndex, tb := s.outTB } := by
  induction st with
  | nil => intro j q hm; simp [encDrain] at hm
  | cons head tail ih =>
    intro j q hm
    cases head with
    | pkt w =>
      cases w with
      | false =>
        have h1 : (encDrain s (EncStep.pkt false :: tail)).1
            = [Ev.encRecv s.sid RK.ok,
                Ev.writePkt s.sid { streamIndex := s.outIndex, tb := s.outTB }] := rfl
        rw [h1] at hm
        simpa using hm
      | true =>
        have h1 : (encDrain s (EncStep.pkt true :: tail)).1
            = [Ev.encRecv s.sid RK.ok,
                Ev.writePkt s.sid { streamIndex := s.outIndex, tb := s.outTB }]
              ++ (encDrain s tail).1 := rfl
        rw [h1] at hm
        rcases List.mem_append.mp hm with h | h
        · simpa using h
        · exact ih j q h
    | eagain => simp [encDrain] at hm
    | eof => simp [encDrain] at hm
    | fatal => simp [encDrain] at hm

/-- C3: timestamp/stream-index discipline at the packet boundaries.  Every
packet the demux loop sends to a decoder carries timestamps already
rescaled to that decoder's time base (the rescale from the input stream's
time base happened before `SendPacket`), and every packet the encode-drain
loop writes through the interleaving writer has been stamped with the
output stream's index and rescaled from the encoder's time base to the
output stream's time base. -/
theorem packet_rescaled_and_stamped :
    (∀ (streams : List StreamModel) (script : List DemuxStep) (j : Nat) (q : Packet),
        Ev.sendPacket j q ∈ (demuxLoop streams script).1 →
        ∃ s, lookupStream streams j = some s ∧ q = { streamIndex := j, tb := s.decTB })
    ∧ (∀ (s : StreamModel) (flush : Bool) (c : EncCall) (j : Nat) (q : Packet),
        Ev.writePkt j q ∈ (encodeWriteFrame s flush c).1 →
        j = s.sid ∧ q = { streamIndex := s.outIndex, tb := s.outTB }) := by
  constructor
  · exact demux_sendPacket
  · intro s flush c j q hm
    by_cases hc : c.sendOk
    · have h1 : (encodeWriteFrame s flush c).1
          = [Ev.encUnref s.sid, Ev.encSend s.sid flush] ++ (encDrain s c.steps).1 := by
        simp [encodeWriteFrame, hc]
      rw [h1] at hm
      rcases List.mem_append.mp hm with h | h
      · exact absurd h (by simp)
      · exact encDrain_writePkt s c.steps j q h
    · have h1 : (encodeWriteFrame s flush c).1
          = [Ev.encUnref s.sid, Ev.encSend s.sid flush] := by
        simp [encodeWriteFrame, hc]
      rw [h1] at hm
      exact absurd hm (by simp)

/-! ## C4 -/

/-- Invariant of every JSON error response the handler can produce. -/
def RespOk (t : Task) : Prop := t.Success = false ∧ (t.Status = 400 ∨ t.Status = 415)

/-- Every fatal JSON response a computation can produce satisfies
`RespOk`. -/
def MOk {α : Type} (x : M α) : Prop :=
  ∀ tr t, x = (tr, Except.error (Fail.resp t)) → RespOk t

theorem mok_ok {α : Type} (tr : List Ev) (a : α) : MOk ((tr, Except.ok a) : M α) := by
  intro tr2 t h
  simp at h

theorem mok_throw {α : Type} (tr : List Ev) (t : Task) (s : Nat) (m : Option String)
    (hs : s = 400 ∨ s = 415) (ht : t.Success = false) :
    MOk ((tr, throwTask t s m) : M α) := by
  intro tr2 t2 h
  simp only [throwTask, Prod.mk.injEq, Except.error.injEq, Fail.resp.injEq] at h
  obtain ⟨-, h2⟩ := h
  rw [← h2]
  exact ⟨ht, hs⟩

theorem mok_panic {α : Type} (tr : List Ev) (m : String) :
    MOk ((tr, Except.error (Fail.panic m)) : M α) := by
  intro tr2 t h
  simp at h

theorem mok_mbind {α β : Type} {x : M α} {f : α → M β}
    (hx : MOk x) (hf : ∀ a, MOk (f a)) : MOk (mbind x f) := by
  intro tr t h
  rcases x with ⟨xtr, xr⟩
  cases xr with
  | error e =>
    have h2 : (xtr, (Except.error e : Except Fail β)) = (tr, Except.error (Fail.resp t)) := h
    simp only [Prod.mk.injEq, Except.error.injEq] at h2
    obtain ⟨h3, h4⟩ := h2
    exact hx xtr t (by rw [h4])
  | ok a =>
    have h2 : (xtr ++ (f a).1, (f a).2) = (tr, Except.error (Fail.resp t)) := h
    have h3 : (f a).2 = Except.error (Fail.resp t) := congrArg Prod.snd h2
    exact hf a (f a).1 t (Prod.ext rfl h3)

theorem mok_openInputPhase (env : Env) (t : Task) (ht : t.Success = false) :
    MOk (openInputPhase env t) := by
  unfold openInputPhase
  split
  · exact mok_throw _ _ _ _ (Or.inl rfl) ht
  · split
    · exact mok_throw _ _ _ _ (Or.inl rfl) ht
    · split
      · exact mok_throw _ _ _ _ (Or.inl rfl) ht
      · exact mok_ok _ _

theorem mok_setupDecStream (env : Env) (t : Task) (is : InStream) (ht : t.Success = false) :
    MOk (setupDecStream env t is) := by
  unfold setupDecStream
  dsimp only
  repeat' split
  all_goals first
    | exact mok_ok _ _
    | exact mok_throw _ _ _ _ (Or.inl rfl) ht

theorem mok_setupDecStreams (env : Env) (t : Task) (l : List InStream)
    (ht : t.Success = false) : MOk (setupDecStreams env t l) := by
  induction l with
  | nil => exact mok_ok _ _
  | cons is rest ih =>
    exact mok_mbind (mok_setupDecStream env t is ht) fun p? =>
      mok_mbind ih fun ps => mok_ok _ _

theorem mok_tempPhase (env : Env) (t : Task) (ht : t.Success = false) :
    MOk (tempPhase env t) := by
  unfold tempPhase
  split
  · exact mok_ok _ _
  · exact mok_throw _ _ _ _ (Or.inl rfl) ht
  · exact mok_panic _ _

theorem mok_allocOutputPhase (env : Env) (t : Task) (ht : t.Success = false) :
    MOk (allocOutputPhase env t) := by
  unfold allocOutputPhase
  split
  · exact mok_throw _ _ _ _ (Or.inl rfl) ht
  · split
    · exact mok_throw _ _ _ _ (Or.inl rfl) ht
    · exact mok_ok _ _

theorem mok_negotiateStream (env : Env) (t : Task) (p : Pipeline) (ht : t.Success = false) :
    MOk (negotiateStream env t p) := by
  unfold negotiateStream
  dsimp only
  repeat' split
  all_goals first
    | exact mok_ok _ _
    | exact mok_throw _ _ _ _ (Or.inl rfl) ht

theorem mok_negotiateStreams (env : Env) (t : Task) (l : List Pipeline)
    (ht : t.Success = false) : MOk (negotiateStreams env t l) := by
  induction l with
  | nil => exact mok_ok _ _
  | cons p rest ih =>
    exact mok_mbind (mok_negotiateStream env t p ht) fun p2 =>
      mok_mbind ih fun ps => mok_ok _ _

theorem mok_ioPhase (env : Env) (t : Task) (ht : t.Success = false) :
    MOk (ioPhase env t) := by
  unfold ioPhase
  split
  · exact mok_ok _ _
  · split
    · exact mok_throw _ _ _ _ (Or.inl rfl) ht
    · exact mok_ok _ _

theorem mok_headerPhase (env : Env) (t : Task) (ht : t.Success = false) :
    MOk (headerPhase env t) := by
  unfold headerPhase
  split
  · exact mok_throw _ _ _ _ (Or.inl rfl) ht
  · exact mok_ok _ _

theorem mok_buildFilter (fs : FilterSetup) (t : Task) (ht : t.Success = false) :
    MOk (buildFilter fs t) := by
  unfold buildFilter
  split
  · exact mok_throw _ _ _ _ (Or.inl rfl) ht
  · split
    · exact mok_throw _ _ _ _ (Or.inl rfl) ht
    · split
      · exact mok_throw _ _ _ _ (Or.inl rfl) ht
      · split
        · exact mok_throw _ _ _ _ (Or.inl rfl) ht
        · split
          · exact mok_throw _ _ _ _ (Or.inl rfl) ht
          · split
            · exact mok_throw _ _ _ _ (Or.inl rfl) ht
            · split
              · exact mok_throw _ _ _ _ (Or.inl rfl) ht
              · split
                · exact mok_throw _ _ _ _ (Or.inl rfl) ht
                · split
                  · exact mok_throw _ _ _ _ (Or.inl rfl) ht
                  · exact mok_ok _ _

theorem mok_filterPhase (env : Env) (t : Task) (l : List Pipeline2)
    (ht : t.Success = false) : MOk (filterPhase env t l) := by
  induction l with
  | nil => exact mok_ok _ _
  | cons p rest ih =>
    exact mok_mbind (mok_buildFilter _ t ht) fun _ => ih

theorem mok_demuxPhase (t : Task) (streams : List StreamModel) (script : List DemuxStep)
    (ht : t.Success = false) : MOk (demuxPhase t streams script) := by
  unfold demuxPhase
  dsimp only
  repeat' split
  all_goals first
    | exact mok_ok _ _
    | exact mok_throw _ _ _ _ (Or.inl rfl) ht

theorem mok_flushPhase (env : Env) (t : Task) (streams : List StreamModel)
    (ht : t.Success = false) : MOk (flushPhase env t streams) := by
  unfold flushPhase
  dsimp only
  repeat' split
  all_goals first
    | exact mok_ok _ _
    | exact mok_throw _ _ _ _ (Or.inl rfl) ht

theorem mok_runTranscode (env : Env) (t0 : Task) : MOk (runTranscode env t0) := by
  have ht : (clampTask t0).Success = false := rfl
  unfold runTranscode
  dsimp only
  split
  · exact mok_throw _ _ _ _ (Or.inr rfl) ht
  · refine mok_mbind (mok_openInputPhase env _ ht) fun _ => ?_
    refine mok_mbind (mok_setupDecStreams env _ _ ht) fun pipes => ?_
    refine mok_mbind (mok_tempPhase env _ ht) fun _ => ?_
    refine mok_mbind (mok_allocOutputPhase env _ ht) fun _ => ?_
    refine mok_mbind (mok_negotiateStreams env _ _ ht) fun pipes2 => ?_
    refine mok_mbind (mok_ioPhase env _ ht) fun _ => ?_
    refine mok_mbind (mok_headerPhase env _ ht) fun _ => ?_
    refine mok_mbind (mok_filterPhase env _ _ ht) fun _ => ?_
    refine mok_mbind (mok_ok _ _) fun _ => ?_
    refine mok_mbind (mok_demuxPhase _ _ _ ht) fun _ => ?_
    refine mok_mbind (mok_flushPhase env _ _ ht) fun _ => ?_
    exact mok_ok _ _

/-- C4 (amended): every fatal error path of the request handler produces a
JSON response with `success = false` and a non-2xx status field (400, or
415 for the unsupported-media-type validation); however, not every fatal
path carries a descriptive message — resource-acquisition nil-handle
paths and the unsupported-channel-layout check set only the local error
and leave the message empty (see the counterexample). -/
theorem fatal_responses_success_false_non2xx (env : Env) (t0 : Task) (task : Task)
    (tr : List Ev) (h : runHandler env t0 = (Outcome.json task, tr)) :
    task.Success = false ∧ (task.Status = 400 ∨ task.Status = 415) := by
  unfold runHandler at h
  rcases hx : runTranscode env t0 with ⟨xtr, xr⟩
  rw [hx] at h
  cases xr with
  | ok a => simp at h
  | error e =>
    cases e with
    | panic m => simp at h
    | resp t2 =>
      simp only [Prod.mk.injEq, Outcome.json.injEq] at h
      obtain ⟨h1, -⟩ := h
      rw [← h1]
      exact mok_runTranscode env t0 xtr t2 (by rw [hx])

/-! ## C7 -/

/-- C7: a request whose target media type is not a key of the fixed
`supportedEncCodecs` map is rejected immediately with `success = false`,
the unsupported-media-type status 415 and a message naming the codec, and
the handler's trace is empty — in particular no native resource (format
context, codec context, frame, packet) has been allocated. -/
theorem unsupported_codec_rejected_before_alloc (env : Env) (t : Task)
    (h : supportedEncCodecs t.MediaType = "") :
    runHandler env t
      = (Outcome.json
          { clampTask t with
            Status := 415
            Message := "main: codec not supported: " ++ t.MediaType },
          [])
    ∧ ((runHandler env t).2.all fun e => ! isAlloc e) = true := by
  have h2 : supportedEncCodecs (clampTask t).MediaType = "" := h
  have key : runHandler env t
      = (Outcome.json
          { clampTask t with
            Status := 415
            Message := "main: codec not supported: " ++ t.MediaType },
          []) := by
    unfold runHandler runTranscode
    dsimp only
    rw [if_pos h2]
    rfl
  exact ⟨key, by rw [key]; rfl⟩

/-! ## C9 -/

/-- C9 (amended): on every successful filter-graph construction, the
buffersrc (`abuffer`) filter context is created with the instance name
`"in"`, and the buffersink (`abuffersink`) filter context is *also*
created with the instance name `"in"` (main.go line 406), not `"out"`;
the named graph endpoints bound for parsing are the `outputs` pad
descriptor named `"in"` (bound to the buffersrc context) and the `inputs`
pad descriptor named `"out"` (bound to the buffersink context). -/
theorem filter_endpoint_names_amended (fs : FilterSetup) (t : Task) (tr : List Ev) (u : Unit)
    (h : buildFilter fs t = (tr, Except.ok u)) :
    tr = [Ev.alloc "filterGraph", Ev.alloc "outputs", Ev.alloc "inputs",
      Ev.newFilterCtx "abuffer" "in", Ev.newFilterCtx "abuffersink" "in",
      Ev.padBind "in" "abuffer", Ev.padBind "out" "abuffersink",
      Ev.alloc "filterFrame", Ev.alloc "encPkt"] := by
  unfold buildFilter at h
  repeat' split at h
  all_goals first
    | exact Except.noConfusion (congrArg Prod.snd h)
    | (have h1 := congrArg Prod.fst h; simpa using h1.symm)

/-! ## Demonstration environments -/

def happyDecSetup : DecSetup :=
  { findDecoderOk := true, allocCtxOk := true, toCtxErr := none, openErr := none }

def happyEncSetup : EncSetup :=
  { newStreamOk := true, outIndex := 0, findEncoderOk := true, allocCtxOk := true,
    channelLayouts := [], sampleFormats := [], openErr := none, fromCtxErr := none }

def happyFilterSetup : FilterSetup :=
  { allocGraphOk := true, allocOutputsOk := true, allocInputsOk := true,
    findBuffersrcOk := true, findBuffersinkOk := true, srcCtxErr := none,
    sinkCtxErr := none, parseErr := none, configureErr := none }

/-- A mono 8 kHz audio input stream. -/
def demoInStream : InStream :=
  { index := 0, mediaType := MT.audio, channels := 1, sampleFormat := "fltp",
    sampleRate := 8000, timeBase := { num := 1, den := 8000 }, globalHeader := false }

/-- An environment in which every native call succeeds. -/
def happyEnv : Env :=
  { allocInputFmtOk := true, openInputErr := none, findInfoErr := none,
    inputStreams := [demoInStream],
    decSetup := fun _ => happyDecSetup,
    tempFile := TempFileResult.ok 7,
    allocOutFmtErr := none, allocOutFmtNil := false,
    encSetup := fun _ => happyEncSetup,
    outputNofile := false, ioOpenErr := none, headerErr := none,
    filterSetup := fun _ => happyFilterSetup,
    demuxScript := [],
    flushFilter := fun _ => { addOk := true, steps := [SinkStep.eof] },
    flushEnc := fun _ => { sendOk := true, steps := [EncStep.eof] },
    trailerErr := none }

/-- A well-formed "wav" request. -/
def demoTask : Task :=
  { AudioUrl := "http://host/a.mp3", MediaType := "wav", Channels := 2, SampleRate := 44100,
    Success := false, Status := 200, Message := "" }

/-! ## C9 counterexample and witness -/

/-- C9 counterexample: on the all-successful filter construction, no
`abuffersink` filter context is ever created with the endpoint name
`"out"` — the buffersink context is created with the name `"in"` (only
the `inputs` pad descriptor is named `"out"`), refuting the claim as
stated. -/
theorem buffersink_created_as_in_not_out_cex :
    Ev.newFilterCtx "abuffersink" "out" ∉ (buildFilter happyFilterSetup demoTask).1
    ∧ Ev.newFilterCtx "abuffersink" "in" ∈ (buildFilter happyFilterSetup demoTask).1
    ∧ Ev.padBind "out" "abuffersink" ∈ (buildFilter happyFilterSetup demoTask).1 := by
  decide

def happyFilterTrace : List Ev :=
  [Ev.alloc "filterGraph", Ev.alloc "outputs", Ev.alloc "inputs",
    Ev.newFilterCtx "abuffer" "in", Ev.newFilterCtx "abuffersink" "in",
    Ev.padBind "in" "abuffer", Ev.padBind "out" "abuffersink",
    Ev.alloc "filterFrame", Ev.alloc "encPkt"]

/-- Witness for the amended C9 theorem at a concrete successful setup. -/
theorem filter_endpoint_names_witness :
    buildFilter happyFilterSetup demoTask = (happyFilterTrace, Except.ok ())
    ∧ happyFilterTrace
        = [Ev.alloc "filterGraph", Ev.alloc "outputs", Ev.alloc "inputs",
            Ev.newFilterCtx "abuffer" "in", Ev.newFilterCtx "abuffersink" "in",
            Ev.padBind "in" "abuffer", Ev.padBind "out" "abuffersink",
            Ev.alloc "filterFrame", Ev.alloc "encPkt"] := by
  refine ⟨by decide, ?_⟩
  exact filter_endpoint_names_amended happyFilterSetup demoTask happyFilterTrace () (by decide)

/-! ## C4 counterexample and witness -/

/-- `happyEnv`, except that the decoder for the audio stream is not found
(`FindDecoder` returns nil, main.go line 140). -/
def cexNoDecoderEnv : Env :=
  { happyEnv with decSetup := fun _ =>
      { findDecoderOk := false, allocCtxOk := true, toCtxErr := none, openErr := none } }

/-- The response of the decoder-not-found path: status 400 but an *empty*
message. -/
def cexEmptyMsgResp : Task :=
  { AudioUrl := "http://host/a.mp3", MediaType := "wav", Channels := 2, SampleRate := 44100,
    Success := false, Status := 400, Message := "" }

/-- C4 counterexample: on the decoder-not-found fatal path only `err` and
the status are set (main.go lines 140-144); the response's message stays
empty, so this fatal path carries no descriptive message naming the
failing stage. -/
theorem fatal_path_empty_message_cex :
    (runHandler cexNoDecoderEnv demoTask).1 = Outcome.json cexEmptyMsgResp
    ∧ cexEmptyMsgResp.Message = "" := by
  constructor
  · decide
  · rfl

/-- Witness for the amended C4 theorem at the concrete fatal path. -/
theorem fatal_responses_witness :
    cexEmptyMsgResp.Success = false
    ∧ (cexEmptyMsgResp.Status = 400 ∨ cexEmptyMsgResp.Status = 415) :=
  fatal_responses_success_false_non2xx cexNoDecoderEnv demoTask cexEmptyMsgResp
    [Ev.alloc "inputFormatContext"] (by decide)

/-! ## C7 witness -/

def taskXyz : Task := { demoTask with MediaType := "xyz" }

/-- Witness for C7: requesting the unsupported media type `"xyz"` yields
the 415 JSON response and an empty (allocation-free) trace. -/
theorem unsupported_codec_witness :
    supportedEncCodecs taskXyz.MediaType = ""
    ∧ runHandler happyEnv taskXyz
        = (Outcome.json
            { clampTask taskXyz with
              Status := 415
              Message := "main: codec not supported: " ++ taskXyz.MediaType },
            []) := by
  have hsup : supportedEncCodecs taskXyz.MediaType = "" := by decide
  exact ⟨hsup, (unsupported_codec_rejected_before_alloc happyEnv taskXyz hsup).1⟩

/-! ## C8 witness -/

def demoDecPipeline : Pipeline :=
  { sid := 0
    inputTB := { num := 1, den := 8000 }
    decCtx :=
      { mediaType := MT.audio
        channels := 1
        channelLayout := 4
        sampleFormat := "fltp"
        sampleRate := 8000
        timeBase := { num := 1, den := 8000 }
        globalHeader := false } }

def demoNegPipeline : Pipeline2 :=
  { base := demoDecPipeline
    encCtx :=
      { mediaType := MT.audio
        channels := 2
        channelLayout := 3
        sampleFormat := "fltp"
        sampleRate := 44100
        timeBase := { num := 1, den := 8000 }
        globalHeader := false }
    outIndex := 0
    outTB := { num := 1, den := 8000 } }

/-- Witness for C8 at a concrete mono input stream and stereo request. -/
theorem channels2Layout_witness :
    channels2Layout 2 = stereoLayout
    ∧ demoDecPipeline.decCtx.channelLayout = channels2Layout demoInStream.channels
    ∧ demoNegPipeline.encCtx.channelLayout = channels2Layout demoTask.Channels := by
  refine ⟨channels2Layout_mono_stereo_and_sites.2.1 2 (by decide),
    channels2Layout_mono_stereo_and_sites.2.2.1 happyEnv demoTask demoInStream
      [Ev.alloc "decCodecContext", Ev.alloc "decFrame"] demoDecPipeline (by decide),
    channels2Layout_mono_stereo_and_sites.2.2.2 happyEnv demoTask demoDecPipeline
      [Ev.alloc "encCodecContext"] demoNegPipeline (by decide)⟩

/-! ## C1 witness -/

/-- A flush plan whose filter drain yields one frame and then EOF, and
whose encoder flush yields one packet and then EOF. -/
def demoFlushPlan : FlushPlan :=
  { s := demoStream,
    fc := { addOk := true,
            steps := [SinkStep.frame { sendOk := true, steps := [EncStep.pkt true, EncStep.eagain] },
                      SinkStep.eof] },
    ec := { sendOk := true, steps := [EncStep.pkt true, EncStep.eof] } }

/-- Witness for C1 at one concrete pipeline with a failing trailer. -/
theorem flush_order_witness :
    (∀ p ∈ [demoFlushPlan], (flushOne p).2 = none)
    ∧ (flushAndTrailer [demoFlushPlan] (some "boom")).2
        = some "main: writing trailer failed: boom" := by
  have h : ∀ p ∈ [demoFlushPlan], (flushOne p).2 = none := by decide
  refine ⟨h, ?_⟩
  rw [(flush_order_filter_then_encoder_then_trailer [demoFlushPlan] (some "boom") h).1]
  rfl

/-! ## C2 witness -/

/-- Witness for the amended C2 theorem: a decoder EOF stops only the
decode-drain loop; the demux loop simply proceeds (here: to the end of
input) with no fatal result. -/
theorem decode_eof_eagain_witness :
    demuxLoop [demoStream] [DemuxStep.pkt 0 { sendOk := true, steps := [DecStep.eof] }]
      = ([Ev.readPkt 0,
          Ev.sendPacket 0 { streamIndex := 0, tb := { num := 1, den := 48000 } },
          Ev.decRecv 0 RK.eof], none) := by
  have h := decode_eof_eagain_stop_inner_only.2.2.2.1 [demoStream] 0
    { sendOk := true, steps := [DecStep.eof] } [] demoStream (by decide) (by decide) (by decide)
  rw [h]
  rfl

/-! ## C3 witness -/

def demoOneScript : List DemuxStep :=
  [DemuxStep.pkt 0 { sendOk := true, steps := [DecStep.eagain] }]

/-- Witness for C3 at a concrete sent packet and written packet. -/
theorem packet_rescaled_witness :
    (∃ s, lookupStream [demoStream] 0 = some s
        ∧ ({ streamIndex := 0, tb := { num := 1, den := 48000 } } : Packet)
            = { streamIndex := 0, tb := s.decTB })
    ∧ (0 = demoStream.sid
        ∧ ({ streamIndex := 0, tb := { num := 1, den := 90000 } } : Packet)
            = { streamIndex := demoStream.outIndex, tb := demoStream.outTB }) := by
  constructor
  · exact packet_rescaled_and_stamped.1 [demoStream] demoOneScript 0
      { streamIndex := 0, tb := { num := 1, den := 48000 } } (by decide)
  · exact packet_rescaled_and_stamped.2 demoStream false demoEncTwoPkts 0
      { streamIndex := 0, tb := { num := 1, den := 90000 } } (by decide)

end Transgode
